import Mathlib

/-!
Verification development for the `capacitor-ad-slots` library: a shallow
embedding of `src/types.ts`, `src/slot-registry.ts` and `src/ad-service.ts`
(the Vue adapter re-exports the service unchanged and adds no behaviour).

The external advertising plugin (`@capacitor-community/admob`), the host
platform detection (`@capacitor/core`) and the dynamic module imports are
modelled by an environment oracle `Env` deciding the outcome of each
external call; every operation additionally records the sequence of
external requests it issues in a trace of `ExtCall`s.  A rejection that
escapes an operation to its caller is modelled by the `Except.error`
result; rejections the code catches never surface there.
-/

namespace CapacitorAdSlots

/-! ### types.ts -/

/-- Source `BannerPosition` from `types.ts`: `'top' | 'bottom'`. -/
inductive BannerPosition
  | top
  | bottom
  deriving Repr, DecidableEq

/-- Source `BannerSize` from `types.ts`. -/
inductive BannerSize
  | adaptive
  | banner
  | full_banner
  | large_banner
  | leaderboard
  | medium_rectangle
  | smart
  deriving Repr, DecidableEq

/-- Source `BannerSlotConfig` from `types.ts`; `?` fields become `Option`. -/
structure BannerSlotConfig where
  adId : String
  position : Option BannerPosition
  size : Option BannerSize
  margin : Option Int
  isTesting : Option Bool
  deriving Repr, DecidableEq

/-- Source `InterstitialSlotConfig` from `types.ts`. -/
structure InterstitialSlotConfig where
  adId : String
  isTesting : Option Bool
  deriving Repr, DecidableEq

/-- Source `RewardedSlotConfig` from `types.ts`. -/
structure RewardedSlotConfig where
  adId : String
  isTesting : Option Bool
  deriving Repr, DecidableEq

/-- Source `AdSlotConfig` from `types.ts`: the tagged union, discriminated in the
source by the `type` field; here by the constructor. -/
inductive AdSlotConfig
  | banner (cfg : BannerSlotConfig)
  | interstitial (cfg : InterstitialSlotConfig)
  | rewarded (cfg : RewardedSlotConfig)
  deriving Repr, DecidableEq

/-! ### slot-registry.ts

The registry is a plain JavaScript object (`const registry: SlotRegistry
= {}`), so its operations carry full ECMAScript object semantics, not
just those of a partial map: a string-keyed read walks the prototype
chain, the `in` operator sees inherited properties, and an assignment
under the key `"__proto__"` invokes the accessor inherited from
`Object.prototype`, REPLACING the registry's prototype with the assigned
config object instead of creating an entry.  The model below carries the
own-property map together with the current prototype. -/

/-- A JavaScript primitive readable out of a slot-config object's own
fields. -/
inductive JsPrim
  | str (s : String)
  | num (n : Int)
  | boolean (b : Bool)
  deriving Repr, DecidableEq

/-- The runtime string of a `BannerPosition` literal. -/
def BannerPosition.jsStr : BannerPosition → String
  | .top => "top"
  | .bottom => "bottom"

/-- The runtime string of a `BannerSize` literal. -/
def BannerSize.jsStr : BannerSize → String
  | .adaptive => "adaptive"
  | .banner => "banner"
  | .full_banner => "full_banner"
  | .large_banner => "large_banner"
  | .leaderboard => "leaderboard"
  | .medium_rectangle => "medium_rectangle"
  | .smart => "smart"

/-- The own string-keyed data properties of a slot-config object at
runtime (an optional field modelled `none` is the idiomatic absent
property of the caller's literal). -/
def AdSlotConfig.jsField : AdSlotConfig → String → Option JsPrim
  | .banner _, "type" => some (JsPrim.str "banner")
  | .banner cfg, "adId" => some (JsPrim.str cfg.adId)
  | .banner cfg, "position" => cfg.position.map (fun p => JsPrim.str p.jsStr)
  | .banner cfg, "size" => cfg.size.map (fun z => JsPrim.str z.jsStr)
  | .banner cfg, "margin" => cfg.margin.map JsPrim.num
  | .banner cfg, "isTesting" => cfg.isTesting.map JsPrim.boolean
  | .interstitial _, "type" => some (JsPrim.str "interstitial")
  | .interstitial cfg, "adId" => some (JsPrim.str cfg.adId)
  | .interstitial cfg, "isTesting" => cfg.isTesting.map JsPrim.boolean
  | .rewarded _, "type" => some (JsPrim.str "rewarded")
  | .rewarded cfg, "adId" => some (JsPrim.str cfg.adId)
  | .rewarded cfg, "isTesting" => cfg.isTesting.map JsPrim.boolean
  | _, _ => none

/-- The own property names of `Object.prototype` reachable by a
string-keyed read, apart from the `__proto__` accessor (handled
separately). -/
def objectProtoMember (id : String) : Bool :=
  id == "constructor" || id == "hasOwnProperty" || id == "isPrototypeOf" ||
  id == "propertyIsEnumerable" || id == "toLocaleString" ||
  id == "toString" || id == "valueOf" ||
  id == "__defineGetter__" || id == "__defineSetter__" ||
  id == "__lookupGetter__" || id == "__lookupSetter__"

/-- The registry object: its own string-keyed properties (each a stored
slot config — the module's only writes store configs) and its
[[Prototype]]: `none` is the initial `Object.prototype`, `some c` a
prototype replaced by the slot config `c` through the inherited
`__proto__` setter. -/
structure SlotRegistry where
  own : String → Option AdSlotConfig
  proto : Option AdSlotConfig

/-- Source `const registry: SlotRegistry = {}`: empty, prototype
`Object.prototype`. -/
def emptyRegistry : SlotRegistry :=
  { own := fun _ => none, proto := none }

/-- What a string-keyed [[Get]] on the registry can produce: undefined,
a stored (or prototype-read) config object, a primitive field of the
polluting config, an inherited `Object.prototype` member (a function
object), or the `Object.prototype` object itself (a `"__proto__"` read
before any pollution). -/
inductive JsGetResult
  | undef
  | config (c : AdSlotConfig)
  | field (p : JsPrim)
  | builtinFn (id : String)
  | objectProto
  deriving Repr, DecidableEq

/-- Source `defineSlot(id, config)`: `registry[id] = config` — JS
[[Set]].  For every id but `"__proto__"` the chain holds at most
writable data properties for that key, so an own property is created or
overwritten; for `"__proto__"` the inherited accessor's setter runs
instead, replacing the registry's prototype with the config object and
creating no entry (so an own `"__proto__"` property never exists). -/
def defineSlot (id : String) (config : AdSlotConfig) (reg : SlotRegistry) :
    SlotRegistry :=
  if id = "__proto__" then { reg with proto := some config }
  else { reg with own := fun k => if k = id then some config else reg.own k }

/-- Source `defineSlots(slots)`: iterates `Object.entries(slots)` — the
argument's own enumerable entries in order — and assigns each pair into
the registry (an entry keyed `"__proto__"`, producible by a computed
key, pollutes like `defineSlot`). -/
def defineSlots (slots : List (String × AdSlotConfig)) (reg : SlotRegistry) :
    SlotRegistry :=
  slots.foldl (fun r p => defineSlot p.1 p.2 r) reg

/-- Source `getSlot(id)`: `registry[id]` — JS [[Get]] walks the chain:
the own property first; then for `"__proto__"` the inherited accessor
returns the CURRENT prototype (the polluting config once polluted, else
`Object.prototype`); then the polluting config's own fields; then
`Object.prototype`'s members; else undefined.  (The declared TS return
type `AdSlotConfig | undefined` is not enforced at runtime.) -/
def getSlot (id : String) (reg : SlotRegistry) : JsGetResult :=
  match reg.own id with
  | some c => JsGetResult.config c
  | none =>
    if id = "__proto__" then
      match reg.proto with
      | some c => JsGetResult.config c
      | none => JsGetResult.objectProto
    else
      match reg.proto with
      | some c =>
        match c.jsField id with
        | some p => JsGetResult.field p
        | none =>
          if objectProtoMember id then JsGetResult.builtinFn id
          else JsGetResult.undef
      | none =>
        if objectProtoMember id then JsGetResult.builtinFn id
        else JsGetResult.undef

/-- Source `hasSlot(id)`: `id in registry` — HasProperty walks the whole
prototype chain, so inherited members count: the own entry, the ever
present `"__proto__"` accessor, a field of the polluting config, or an
`Object.prototype` member. -/
def hasSlot (id : String) (reg : SlotRegistry) : Bool :=
  (reg.own id).isSome || id == "__proto__" ||
  (match reg.proto with
   | some c => (c.jsField id).isSome
   | none => false) ||
  objectProtoMember id

/-- A call against the registry module: `defineSlot` or `defineSlots`. -/
inductive RegOp
  | defOne (id : String) (config : AdSlotConfig)
  | defMany (slots : List (String × AdSlotConfig))

/-- Run one registry call. -/
def applyRegOp (reg : SlotRegistry) : RegOp → SlotRegistry
  | .defOne id config => defineSlot id config reg
  | .defMany slots => defineSlots slots reg

/-- Run a sequence of registry calls in order. -/
def applyRegOps (reg : SlotRegistry) (ops : List RegOp) : SlotRegistry :=
  ops.foldl applyRegOp reg

/-- The flat list of `(id, config)` assignments a sequence of registry
calls performs, in execution order. -/
def regWrites : List RegOp → List (String × AdSlotConfig)
  | [] => []
  | .defOne id config :: rest => (id, config) :: regWrites rest
  | .defMany slots :: rest => slots ++ regWrites rest

/-- Specification-side reading of last-write-wins: the configuration of
the LAST assignment to `id` in the list, if any. -/
def lastWrite : List (String × AdSlotConfig) → String → Option AdSlotConfig
  | [], _ => none
  | p :: rest, id =>
    match lastWrite rest id with
    | some c => some c
    | none => if p.1 = id then some p.2 else none

/-- Specification-side reading of the last assignment that created or
overwrote an OWN entry for `id`: assignments keyed `"__proto__"` never
do (they hit the inherited setter). -/
def lastOwnWrite (ws : List (String × AdSlotConfig)) (id : String) :
    Option AdSlotConfig :=
  if id = "__proto__" then none else lastWrite ws id

/-! ### External surface of `@capacitor-community/admob` used by ad-service.ts -/

/-- Source `BannerAdSize` values referenced by `BANNER_SIZE_MAP`. -/
inductive BannerAdSize
  | ADAPTIVE_BANNER
  | BANNER
  | FULL_BANNER
  | LARGE_BANNER
  | LEADERBOARD
  | MEDIUM_RECTANGLE
  | SMART_BANNER
  deriving Repr, DecidableEq

/-- Source `BannerAdPosition` values referenced by `toBannerAdPosition`. -/
inductive BannerAdPosition
  | TOP_CENTER
  | BOTTOM_CENTER
  deriving Repr, DecidableEq

/-- Source `AdmobConsentDebugGeography` values referenced by `initialize`. -/
inductive AdmobConsentDebugGeography
  | EEA
  | NOT_EEA
  | DISABLED
  deriving Repr, DecidableEq

/-- Source `AdmobConsentStatus` values; `initialize` compares against
`REQUIRED` and `UNKNOWN`. -/
inductive AdmobConsentStatus
  | REQUIRED
  | UNKNOWN
  | OBTAINED
  | NOT_REQUIRED
  deriving Repr, DecidableEq

/-- The consent information returned by `AdMob.requestConsentInfo`. -/
structure ConsentInfo where
  isConsentFormAvailable : Bool
  status : AdmobConsentStatus
  deriving Repr, DecidableEq

/-- The reward item resolved by `AdMob.showRewardVideoAd`
(`{ type: string; amount: number }`). -/
structure RewardItem where
  amount : Int
  type : String
  deriving Repr, DecidableEq

/-! ### ad-service.ts: state, environment, trace -/

/-- The module-level mutable state of `ad-service.ts`: the three reactive
refs plus the lazy-import cache (`AdMob` being set iff `admobLoaded`), and
the slot-registry module state it reads through `getSlot`/`hasSlot`. -/
structure AdState where
  admobLoaded : Bool
  isInitialized : Bool
  adsRemoved : Bool
  currentBannerSlot : Option String
  registry : SlotRegistry

/-- Source `AdSlotsInitOptions` from `types.ts`.  The source field
`initializeForTesting` is called `initForTesting` here. -/
structure AdSlotsInitOptions where
  testingDevices : Option (List String)
  initForTesting : Option Bool
  consentDebugGeography : Option AdmobConsentDebugGeography
  consentTestDevices : Option (List String)
  isTesting : Option Bool
  deriving Repr, DecidableEq

/-- Environment oracle: the platform answer and the outcome of each kind
of external call.  `showRewardResult` is `.error ()` when
`showRewardVideoAd` rejects, `.ok r` when it resolves with reward `r`.
(The outcome of `showConsentForm` is not tracked: the source swallows a
rejection there in the inner consent `catch` with no observable effect
beyond a log line.) -/
structure Env where
  isNativePlatform : Bool
  importAdMobOk : Bool
  admobInitOk : Bool
  consentInfo : Except String ConsentInfo
  showBannerOk : Bool
  hideBannerOk : Bool
  removeBannerOk : Bool
  prepareInterstitialOk : Bool
  showInterstitialOk : Bool
  prepareRewardOk : Bool
  showRewardResult : Except Unit RewardItem

/-- One request issued against the outside world, as recorded in the
trace of an operation.  `schedulePreload` is the `setTimeout` that
registers the fire-and-forget interstitial pre-load. -/
inductive ExtCall
  | importAdMob
  | admobInit (testingDevices : Option (List String)) (forTesting : Bool)
  | requestConsentInfo (debugGeography : AdmobConsentDebugGeography)
      (testDeviceIdentifiers : Option (List String))
  | showConsentForm
  | addBannerFailedListener
  | addInterstitialFailedListener
  | showBanner (adId : String) (adSize : BannerAdSize)
      (position : BannerAdPosition) (margin : Int) (isTesting : Bool)
  | hideBanner
  | removeBanner
  | prepareInterstitial (adId : String) (isTesting : Bool)
  | showInterstitial
  | schedulePreload (slotId : String)
  | prepareRewardVideoAd (adId : String) (isTesting : Bool)
  | showRewardVideoAd
  deriving Repr, DecidableEq

/-- Result of running an asynchronous service operation: the value the
returned promise settles with (`Except.error` = a rejection that escapes
to the caller), the state after the run, and the external calls issued. -/
def AdRun (α : Type) : Type := Except Unit α × AdState × List ExtCall

/-! ### ad-service.ts: helpers -/

/-- Source `BANNER_SIZE_MAP` composed with the `BannerAdSize` index in
`toBannerAdSize`; in the typed model the `?? 'ADAPTIVE_BANNER'` and
`?? BannerAdSize.ADAPTIVE_BANNER` fallbacks are unreachable. -/
def toBannerAdSize : BannerSize → BannerAdSize
  | .adaptive => .ADAPTIVE_BANNER
  | .banner => .BANNER
  | .full_banner => .FULL_BANNER
  | .large_banner => .LARGE_BANNER
  | .leaderboard => .LEADERBOARD
  | .medium_rectangle => .MEDIUM_RECTANGLE
  | .smart => .SMART_BANNER

/-- Source `toBannerAdPosition`. -/
def toBannerAdPosition : BannerPosition → BannerAdPosition
  | .top => .TOP_CENTER
  | .bottom => .BOTTOM_CENTER

/-- Source `isNative()`: reads `Capacitor.isNativePlatform()`.  The
dynamic module loading of the core package is modelled as always
resolving. -/
def isNative (env : Env) : Bool :=
  env.isNativePlatform

/-- Source `loadAdMob()`: returns at once when the module is cached
(`if (AdMob) return`), otherwise awaits the dynamic import of
`@capacitor-community/admob`; a rejected import escapes to the caller
(every call site awaits `loadAdMob()` OUTSIDE its try/catch). -/
def loadAdMob (st : AdState) (env : Env) : AdRun Unit :=
  if st.admobLoaded then (Except.ok (), st, [])
  else if env.importAdMobOk then
    (Except.ok (), { st with admobLoaded := true }, [ExtCall.importAdMob])
  else (Except.error (), st, [ExtCall.importAdMob])

/-- Source `resolveTesting(slot, globalTesting)`: the source receives the slot
object and reads its optional `isTesting` field, passed here directly. -/
def resolveTesting (slotIsTesting : Option Bool) (globalTesting : Option Bool) :
    Bool :=
  match globalTesting with
  | some g => g
  | none => slotIsTesting.getD false

/-- Source `shouldShowAds()`: `isInitialized.value && !adsRemoved.value`. -/
def shouldShowAds (st : AdState) : Bool :=
  st.isInitialized && !st.adsRemoved

/-! ### ad-service.ts: operations

Each operation is the direct translation of its source function.  The
promise machinery becomes explicit state passing; `await f()` outside a
`try` propagates `Except.error`, `await f()` inside a `try` routes a
failure to the corresponding `catch` branch (which in the source only
logs).  JavaScript truthiness is translated faithfully: in particular
`currentBannerSlot.value` used as a condition is true iff the value is a
non-null, NON-EMPTY string. -/

/-- Source `initialize(options)` (named `initAds` here because the source name
is not available).  `await loadAdMob()` happens before the `try`; inside
the `try`, a rejection of `AdMob.initialize` jumps to the outer `catch`
(log only), a rejection in the consent sub-step is absorbed by the inner
`catch`, and on reaching the end `isInitialized` is set. -/
def initAds (options : AdSlotsInitOptions) (st : AdState) (env : Env) :
    AdRun Unit :=
  if !(isNative env) then (Except.ok (), st, [])
  else
    match loadAdMob st env with
    | (Except.error e, st1, tr1) => (Except.error e, st1, tr1)
    | (Except.ok _, st1, tr1) =>
      let forTesting := options.initForTesting.getD
        (match options.testingDevices with
         | some ds => !ds.isEmpty
         | none => false)
      let tr2 := tr1 ++ [ExtCall.admobInit options.testingDevices forTesting]
      if !env.admobInitOk then (Except.ok (), st1, tr2)
      else
        let debugGeo :=
          match options.consentDebugGeography with
          | some AdmobConsentDebugGeography.EEA => AdmobConsentDebugGeography.EEA
          | some AdmobConsentDebugGeography.DISABLED => AdmobConsentDebugGeography.DISABLED
          | _ => AdmobConsentDebugGeography.NOT_EEA
        let testIds :=
          match options.consentTestDevices with
          | some ds => if !ds.isEmpty then some ds else none
          | none => none
        let tr3 := tr2 ++ [ExtCall.requestConsentInfo debugGeo testIds]
        let tr4 :=
          match env.consentInfo with
          | Except.error _ => tr3
          | Except.ok info =>
            if info.isConsentFormAvailable &&
                (info.status == AdmobConsentStatus.REQUIRED ||
                 info.status == AdmobConsentStatus.UNKNOWN)
            then tr3 ++ [ExtCall.showConsentForm]
            else tr3
        let tr5 := tr4 ++ [ExtCall.addBannerFailedListener,
                           ExtCall.addInterstitialFailedListener]
        (Except.ok (), { st1 with isInitialized := true }, tr5)

/-- Source `hide(slotId)`. -/
def hide (slotId : String) (st : AdState) (env : Env) : AdRun Unit :=
  if !(isNative env) then (Except.ok (), st, [])
  else if st.currentBannerSlot ≠ some slotId then (Except.ok (), st, [])
  else
    match loadAdMob st env with
    | (Except.error e, st1, tr1) => (Except.error e, st1, tr1)
    | (Except.ok _, st1, tr1) =>
      let tr2 := tr1 ++ [ExtCall.hideBanner]
      if env.hideBannerOk then
        (Except.ok (), { st1 with currentBannerSlot := none }, tr2)
      else (Except.ok (), st1, tr2)

/-- Source `remove(slotId)`. -/
def remove (slotId : String) (st : AdState) (env : Env) : AdRun Unit :=
  if !(isNative env) then (Except.ok (), st, [])
  else if st.currentBannerSlot ≠ some slotId then (Except.ok (), st, [])
  else
    match loadAdMob st env with
    | (Except.error e, st1, tr1) => (Except.error e, st1, tr1)
    | (Except.ok _, st1, tr1) =>
      let tr2 := tr1 ++ [ExtCall.removeBanner]
      if env.removeBannerOk then
        (Except.ok (), { st1 with currentBannerSlot := none }, tr2)
      else (Except.ok (), st1, tr2)

/-- Source `setAdsRemoved(removed)`: synchronous, returns `void`.  The guard is
`if (removed && currentBannerSlot.value)`, so the fire-and-forget
`hide(...)` happens only for a truthy (non-empty) current slot id; the
un-awaited promise's rejection never reaches the caller, hence no
`Except` in the result, but its state effects and external calls do
occur (single-threaded continuation). -/
def setAdsRemoved (removed : Bool) (st : AdState) (env : Env) :
    Unit × AdState × List ExtCall :=
  let st1 := { st with adsRemoved := removed }
  if removed then
    match st1.currentBannerSlot with
    | some s =>
      if s ≠ "" then ((), (hide s st1 env).2)
      else ((), st1, [])
    | none => ((), st1, [])
  else ((), st1, [])

/-- Source `triggerRewarded(slotId, globalTesting)`: the only operation with a
meaningful result; resolves `null` (here `none`) on any gate failure,
wrong slot type, or caught external failure, and the reward descriptor
`{ amount: reward.amount, type: reward.type }` on success. -/
def triggerRewarded (slotId : String) (globalTesting : Option Bool)
    (st : AdState) (env : Env) : AdRun (Option RewardItem) :=
  if !st.isInitialized || st.adsRemoved || !(isNative env) then
    (Except.ok none, st, [])
  else
    match getSlot slotId st.registry with
    | JsGetResult.config (AdSlotConfig.rewarded slot) =>
      match loadAdMob st env with
      | (Except.error e, st1, tr1) => (Except.error e, st1, tr1)
      | (Except.ok _, st1, tr1) =>
        let isTesting := resolveTesting slot.isTesting globalTesting
        let tr2 := tr1 ++ [ExtCall.prepareRewardVideoAd slot.adId isTesting]
        if !env.prepareRewardOk then (Except.ok none, st1, tr2)
        else
          let tr3 := tr2 ++ [ExtCall.showRewardVideoAd]
          match env.showRewardResult with
          | Except.error _ => (Except.ok none, st1, tr3)
          | Except.ok reward =>
            (Except.ok (some { amount := reward.amount, type := reward.type }),
             st1, tr3)
    | _ => (Except.ok none, st, [])

/-- Source `triggerInterstitial(slotId, globalTesting)` (internal): prepare then
show; on success registers the delayed pre-load via `setTimeout`. -/
def triggerInterstitial (slotId : String) (globalTesting : Option Bool)
    (st : AdState) (env : Env) : AdRun Unit :=
  match getSlot slotId st.registry with
  | JsGetResult.config (AdSlotConfig.interstitial slot) =>
    match loadAdMob st env with
    | (Except.error e, st1, tr1) => (Except.error e, st1, tr1)
    | (Except.ok _, st1, tr1) =>
      let isTesting := resolveTesting slot.isTesting globalTesting
      let tr2 := tr1 ++ [ExtCall.prepareInterstitial slot.adId isTesting]
      if !env.prepareInterstitialOk then (Except.ok (), st1, tr2)
      else
        let tr3 := tr2 ++ [ExtCall.showInterstitial]
        if !env.showInterstitialOk then (Except.ok (), st1, tr3)
        else (Except.ok (), st1, tr3 ++ [ExtCall.schedulePreload slotId])
  | _ => (Except.ok (), st, [])

/-- Source `prepareInterstitial(slotId, globalTesting)` (internal, also the body
of the public `prepareInterstitialSlot`): the `try`/`catch` around
`AdMob.prepareInterstitial` ignores a failure entirely. -/
def prepareInterstitial (slotId : String) (globalTesting : Option Bool)
    (st : AdState) (env : Env) : AdRun Unit :=
  if !st.isInitialized || st.adsRemoved || !(isNative env) then
    (Except.ok (), st, [])
  else
    match getSlot slotId st.registry with
    | JsGetResult.config (AdSlotConfig.interstitial slot) =>
      match loadAdMob st env with
      | (Except.error e, st1, tr1) => (Except.error e, st1, tr1)
      | (Except.ok _, st1, tr1) =>
        let isTesting := resolveTesting slot.isTesting globalTesting
        (Except.ok (), st1, tr1 ++ [ExtCall.prepareInterstitial slot.adId isTesting])
    | _ => (Except.ok (), st, [])

/-- Source `prepareInterstitialSlot(slotId, globalTesting)`: public wrapper. -/
def prepareInterstitialSlot (slotId : String) (globalTesting : Option Bool)
    (st : AdState) (env : Env) : AdRun Unit :=
  prepareInterstitial slotId globalTesting st env

/-- Source `show(slotId, globalTesting)` (named `showSlot` because `show`
is a Lean keyword).  Banner branch: resolve defaults and the test flag, hide a
DIFFERENT truthy current banner first (`currentBannerSlot.value &&
currentBannerSlot.value !== slotId`), then request `showBanner`; a
rejection of either request lands in the `catch` (log only), so
`currentBannerSlot` is updated only after a successful `showBanner`.
Interstitial/rewarded slots delegate (awaited, result discarded).  A
read that is no config object at all (an inherited member passing the
`in` gate, or a polluted-prototype field) matches none of the three
`slot.type` tests and falls through with no action. -/
def showSlot (slotId : String) (globalTesting : Option Bool)
    (st : AdState) (env : Env) : AdRun Unit :=
  if !st.isInitialized || st.adsRemoved || !(isNative env) then
    (Except.ok (), st, [])
  else if !(hasSlot slotId st.registry) then (Except.ok (), st, [])
  else
    match getSlot slotId st.registry with
    | JsGetResult.config (AdSlotConfig.banner cfg) =>
      match loadAdMob st env with
      | (Except.error e, st1, tr1) => (Except.error e, st1, tr1)
      | (Except.ok _, st1, tr1) =>
        let position := cfg.position.getD BannerPosition.bottom
        let size := cfg.size.getD BannerSize.adaptive
        let isTesting := resolveTesting cfg.isTesting globalTesting
        let needHide :=
          match st1.currentBannerSlot with
          | some cur => cur ≠ "" && cur ≠ slotId
          | none => false
        let trHide := if needHide then [ExtCall.hideBanner] else []
        if needHide && !env.hideBannerOk then (Except.ok (), st1, tr1 ++ trHide)
        else
          let tr2 := tr1 ++ trHide ++
            [ExtCall.showBanner cfg.adId (toBannerAdSize size)
              (toBannerAdPosition position) (cfg.margin.getD 0) isTesting]
          if env.showBannerOk then
            (Except.ok (), { st1 with currentBannerSlot := some slotId }, tr2)
          else (Except.ok (), st1, tr2)
    | JsGetResult.config (AdSlotConfig.interstitial _) =>
      match triggerInterstitial slotId globalTesting st env with
      | (Except.error e, st1, tr1) => (Except.error e, st1, tr1)
      | (Except.ok _, st1, tr1) => (Except.ok (), st1, tr1)
    | JsGetResult.config (AdSlotConfig.rewarded _) =>
      match triggerRewarded slotId globalTesting st env with
      | (Except.error e, st1, tr1) => (Except.error e, st1, tr1)
      | (Except.ok _, st1, tr1) => (Except.ok (), st1, tr1)
    | _ => (Except.ok (), st, [])

/-- Source `trigger(slotId, globalTesting)`: interstitial/rewarded
dispatch; a banner slot — like any non-config read that passed the `in`
gate — only logs a warning and performs no action. -/
def trigger (slotId : String) (globalTesting : Option Bool)
    (st : AdState) (env : Env) : AdRun Unit :=
  if !st.isInitialized || st.adsRemoved || !(isNative env) then
    (Except.ok (), st, [])
  else if !(hasSlot slotId st.registry) then (Except.ok (), st, [])
  else
    match getSlot slotId st.registry with
    | JsGetResult.config (AdSlotConfig.interstitial _) =>
      match triggerInterstitial slotId globalTesting st env with
      | (Except.error e, st1, tr1) => (Except.error e, st1, tr1)
      | (Except.ok _, st1, tr1) => (Except.ok (), st1, tr1)
    | JsGetResult.config (AdSlotConfig.rewarded _) =>
      match triggerRewarded slotId globalTesting st env with
      | (Except.error e, st1, tr1) => (Except.error e, st1, tr1)
      | (Except.ok _, st1, tr1) => (Except.ok (), st1, tr1)
    | _ => (Except.ok (), st, [])

/-- The public operations of the orchestration service, for properties
quantifying over the whole public surface. -/
inductive PublicOp
  | initOp (options : AdSlotsInitOptions)
  | showOp (slotId : String) (globalTesting : Option Bool)
  | hideOp (slotId : String)
  | removeOp (slotId : String)
  | triggerOp (slotId : String) (globalTesting : Option Bool)
  | triggerRewardedOp (slotId : String) (globalTesting : Option Bool)
  | prepareInterstitialSlotOp (slotId : String) (globalTesting : Option Bool)
  | setAdsRemovedOp (removed : Bool)

/-- Dispatch a public operation, erasing the operation-specific resolved
value (a caller-visible rejection stays `Except.error`). -/
def runPublicOp (op : PublicOp) (st : AdState) (env : Env) : AdRun Unit :=
  match op with
  | .initOp options => initAds options st env
  | .showOp slotId g => showSlot slotId g st env
  | .hideOp slotId => hide slotId st env
  | .removeOp slotId => remove slotId st env
  | .triggerOp slotId g => trigger slotId g st env
  | .triggerRewardedOp slotId g =>
    match triggerRewarded slotId g st env with
    | (Except.error e, st1, tr1) => (Except.error e, st1, tr1)
    | (Except.ok _, st1, tr1) => (Except.ok (), st1, tr1)
  | .prepareInterstitialSlotOp slotId g =>
    prepareInterstitialSlot slotId g st env
  | .setAdsRemovedOp removed =>
    let ((), st1, tr1) := setAdsRemoved removed st env
    (Except.ok (), st1, tr1)

/-! ### Concrete fixtures (used by witnesses and counterexamples) -/

/-- A banner slot definition with all optional fields unset. -/
def cfgBanner1 : BannerSlotConfig :=
  { adId := "ad-banner-1", position := none, size := none, margin := none,
    isTesting := none }

/-- A banner slot definition with every optional field set. -/
def cfgBanner2 : BannerSlotConfig :=
  { adId := "ad-banner-2", position := some BannerPosition.top,
    size := some BannerSize.leaderboard, margin := some 8,
    isTesting := some true }

/-- A rewarded slot definition. -/
def cfgRewarded1 : RewardedSlotConfig :=
  { adId := "ad-rewarded-1", isTesting := none }

/-- An interstitial slot definition. -/
def cfgInter1 : InterstitialSlotConfig :=
  { adId := "ad-inter-1", isTesting := none }

/-- A registry holding the four sample slots. -/
def regW : SlotRegistry :=
  defineSlot "b1" (AdSlotConfig.banner cfgBanner1)
    (defineSlot "b2" (AdSlotConfig.banner cfgBanner2)
      (defineSlot "r1" (AdSlotConfig.rewarded cfgRewarded1)
        (defineSlot "i1" (AdSlotConfig.interstitial cfgInter1) emptyRegistry)))

/-- Environment where the platform is native and every external call
succeeds; the rewarded ad grants 5 "coins". -/
def envW : Env :=
  { isNativePlatform := true, importAdMobOk := true, admobInitOk := true,
    consentInfo := Except.ok { isConsentFormAvailable := false,
                               status := AdmobConsentStatus.OBTAINED },
    showBannerOk := true, hideBannerOk := true, removeBannerOk := true,
    prepareInterstitialOk := true, showInterstitialOk := true,
    prepareRewardOk := true,
    showRewardResult := Except.ok { amount := 5, type := "coins" } }

/-- Like `envW` but the dynamic import of the AdMob module rejects. -/
def envNoImport : Env := { envW with importAdMobOk := false }

/-- The module's start state over the sample registry. -/
def stFresh : AdState :=
  { admobLoaded := false, isInitialized := false, adsRemoved := false,
    currentBannerSlot := none, registry := regW }

/-- A state after a successful `initialize` on a native host. -/
def stReady : AdState := { stFresh with admobLoaded := true, isInitialized := true }

/-- State `stReady` with banner slot `"b1"` currently shown. -/
def stShowingB1 : AdState := { stReady with currentBannerSlot := some "b1" }

/-- State `stReady` with the empty-string slot id as current banner. -/
def stShowingEmpty : AdState := { stReady with currentBannerSlot := some "" }

/-- Default (all fields unset) init options. -/
def optsW : AdSlotsInitOptions :=
  { testingDevices := none, initForTesting := none,
    consentDebugGeography := none, consentTestDevices := none,
    isTesting := none }

/-- A registry-call sequence that defines `"b1"` twice. -/
def opsW : List RegOp :=
  [RegOp.defOne "b1" (AdSlotConfig.banner cfgBanner1),
   RegOp.defOne "b1" (AdSlotConfig.banner cfgBanner2)]

/-! ### Registry lemmas and theorems -/

/-- Helper: a sequence of registry calls is its flat assignment list. -/
theorem applyRegOps_eq_writes (ops : List RegOp) :
    ∀ reg : SlotRegistry,
      applyRegOps reg ops =
        (regWrites ops).foldl (fun r p => defineSlot p.1 p.2 r) reg := by
  induction ops with
  | nil => intro reg; rfl
  | cons op rest ih =>
    intro reg
    cases op with
    | defOne id config =>
      simp only [applyRegOps, List.foldl_cons, applyRegOp, regWrites]
      exact ih _
    | defMany slots =>
      simp only [applyRegOps, List.foldl_cons, applyRegOp, regWrites,
        List.foldl_append, defineSlots]
      exact ih _

/-- Helper: `lastWrite` hits iff the id was assigned. -/
theorem lastWrite_isSome_iff (A : String) :
    ∀ ws : List (String × AdSlotConfig),
      (lastWrite ws A).isSome = true ↔ A ∈ ws.map Prod.fst := by
  intro ws
  induction ws with
  | nil => simp [lastWrite]
  | cons p rest ih =>
    by_cases h : p.1 = A
    · cases hl : lastWrite rest A <;>
        simp [lastWrite, hl, h, ← ih]
    · have h' : ¬A = p.1 := fun hc => h hc.symm
      cases hl : lastWrite rest A <;>
        simp [lastWrite, hl, h, h', ← ih]

/-- Helper: `lastWrite` misses an id no assignment uses. -/
theorem lastWrite_none_of_ne (X : String)
    (ws : List (String × AdSlotConfig)) (h : ∀ p ∈ ws, p.1 ≠ X) :
    lastWrite ws X = none := by
  induction ws with
  | nil => rfl
  | cons p rest ih =>
    have hrest := ih (fun q hq => h q (List.mem_cons_of_mem p hq))
    have hp : p.1 ≠ X := h p (List.mem_cons_self p rest)
    simp [lastWrite, hrest, hp]

/-- Helper: the own entry of an id after a list of assignments is its
last non-`"__proto__"` assignment when one exists, else the prior
entry (a `"__proto__"` assignment goes to the inherited setter and
creates no own entry). -/
theorem own_applyWrites (A : String) (ws : List (String × AdSlotConfig)) :
    ∀ reg : SlotRegistry,
      ((ws.foldl (fun r p => defineSlot p.1 p.2 r) reg).own) A =
        match lastOwnWrite ws A with
        | some c => some c
        | none => reg.own A := by
  induction ws with
  | nil => intro reg; simp [lastOwnWrite, lastWrite]
  | cons p rest ih =>
    intro reg
    simp only [List.foldl_cons]
    rw [ih]
    by_cases hA : A = "__proto__"
    · subst hA
      by_cases hp : p.1 = "__proto__"
      · simp [lastOwnWrite, defineSlot, hp]
      · have hp' : ¬("__proto__" : String) = p.1 := fun hh => hp hh.symm
        simp [lastOwnWrite, defineSlot, hp, hp']
    · by_cases hp : p.1 = "__proto__"
      · have hpA : ¬p.1 = A := by rw [hp]; exact fun hh => hA hh.symm
        have hA' : ¬("__proto__" : String) = A := fun hh => hA hh.symm
        cases hl : lastWrite rest A <;>
          simp [lastOwnWrite, hA, hA', lastWrite, hl, hpA, defineSlot, hp]
      · by_cases hpa : p.1 = A
        · subst hpa
          cases hl : lastWrite rest p.1 <;>
            simp [lastOwnWrite, hA, lastWrite, hl, defineSlot, hp]
        · have hpa' : ¬A = p.1 := fun hh => hpa hh.symm
          cases hl : lastWrite rest A <;>
            simp [lastOwnWrite, hA, lastWrite, hl, hpa, hpa', defineSlot, hp]

/-- Helper: the prototype after a list of assignments is the config of
the last `"__proto__"` assignment when one exists, else the prior
prototype. -/
theorem proto_applyWrites (ws : List (String × AdSlotConfig)) :
    ∀ reg : SlotRegistry,
      (ws.foldl (fun r p => defineSlot p.1 p.2 r) reg).proto =
        match lastWrite ws "__proto__" with
        | some c => some c
        | none => reg.proto := by
  induction ws with
  | nil => intro reg; rfl
  | cons p rest ih =>
    intro reg
    simp only [List.foldl_cons]
    rw [ih]
    by_cases hp : p.1 = "__proto__" <;>
      cases hl : lastWrite rest "__proto__" <;>
        simp [lastWrite, hl, hp, defineSlot]

/-- Helper: `getSlot` reads only the id's own entry and the prototype. -/
theorem getSlot_congr (A : String) (reg1 reg2 : SlotRegistry)
    (h1 : reg1.own A = reg2.own A) (h2 : reg1.proto = reg2.proto) :
    getSlot A reg1 = getSlot A reg2 := by
  unfold getSlot
  rw [h1, h2]

/-- Helper: a read producing a config object forces `in` to be true —
the read came from an own entry or from the ever-present `"__proto__"`
accessor over a polluted prototype. -/
theorem hasSlot_of_getSlot_config (A : String) (reg : SlotRegistry)
    (c : AdSlotConfig) (h : getSlot A reg = JsGetResult.config c) :
    hasSlot A reg = true := by
  unfold getSlot at h
  unfold hasSlot
  cases ho : reg.own A with
  | some c2 => simp [ho]
  | none =>
    simp only [ho] at h
    by_cases hA : A = "__proto__"
    · simp [hA]
    · rw [if_neg hA] at h
      cases hp : reg.proto with
      | some c3 =>
        simp only [hp] at h
        cases hf : AdSlotConfig.jsField c3 A with
        | some p => simp [hf] at h
        | none =>
          simp only [hf] at h
          by_cases hm : objectProtoMember A <;> simp [hm] at h
      | none =>
        simp only [hp] at h
        by_cases hm : objectProtoMember A <;> simp [hm] at h

/-- C8 counterexample to the claim as stated: defining the legal id
`"__proto__"` creates no entry — the assignment runs the inherited
setter and replaces the registry's prototype — after which the
DIFFERENT id `"adId"`, previously reading as undefined, resolves
through the chain to the polluting config's `adId` field.  So a
definition of one id fails to leave another id's entry unchanged. -/
theorem registry_proto_pollution_cex :
    getSlot "adId" emptyRegistry = JsGetResult.undef ∧
    getSlot "adId"
      (defineSlot "__proto__" (AdSlotConfig.banner cfgBanner1)
        emptyRegistry) =
      JsGetResult.field (JsPrim.str "ad-banner-1") ∧
    ("adId" : String) ≠ "__proto__" := by
  refine ⟨by decide, by decide, by decide⟩

/-- C8 (amended): for every starting registry, every id `A`, and every
sequence of `defineSlot`/`defineSlots` calls none of whose assignments
uses the id `"__proto__"`: `getSlot A` returns exactly the whole
configuration supplied by the last definition of `A` in the sequence
(no merging of fields), and an id the sequence never assigns reads
exactly as before.  The `"__proto__"` proviso is forced by the
counterexample: that one id writes through the inherited setter and
changes other ids' reads. -/
theorem registry_last_write_wins (reg : SlotRegistry) (ops : List RegOp)
    (A : String) (hp : ∀ p ∈ regWrites ops, p.1 ≠ "__proto__") :
    getSlot A (applyRegOps reg ops) =
      match lastWrite (regWrites ops) A with
      | some c => JsGetResult.config c
      | none => getSlot A reg := by
  rw [applyRegOps_eq_writes]
  have hproto := proto_applyWrites (regWrites ops) reg
  rw [lastWrite_none_of_ne "__proto__" (regWrites ops) hp] at hproto
  have hown := own_applyWrites A (regWrites ops) reg
  cases hlw : lastWrite (regWrites ops) A with
  | some c =>
    have hmem : A ∈ (regWrites ops).map Prod.fst :=
      (lastWrite_isSome_iff A (regWrites ops)).mp (by rw [hlw]; rfl)
    obtain ⟨p, hpmem, hfst⟩ := List.mem_map.mp hmem
    have hA : ¬A = "__proto__" := by
      rw [← hfst]
      exact hp p hpmem
    unfold lastOwnWrite at hown
    rw [if_neg hA, hlw] at hown
    unfold getSlot
    rw [hown]
  | none =>
    have hownA :
        (((regWrites ops).foldl (fun r p => defineSlot p.1 p.2 r) reg).own) A
          = reg.own A := by
      rw [hown]
      unfold lastOwnWrite
      by_cases hA : A = "__proto__"
      · simp [hA]
      · simp [hA, hlw]
    exact getSlot_congr A _ reg hownA hproto

/-- C8 witness: defining `"b1"` twice (no `"__proto__"` assignment
involved) makes `getSlot "b1"` the second configuration. -/
theorem registry_last_write_wins_witness :
    getSlot "b1" (applyRegOps emptyRegistry opsW) =
      JsGetResult.config (AdSlotConfig.banner cfgBanner2) := by
  have h := registry_last_write_wins emptyRegistry opsW "b1" (by decide)
  rw [h]
  decide

/-- C9 counterexample to the claim as stated: with NOTHING ever defined
(the empty call sequence), `hasSlot "toString"` is already true — the
`in` operator sees the member inherited from `Object.prototype` —
refuting "never defined implies false". -/
theorem hasSlot_inherited_cex :
    hasSlot "toString" (applyRegOps emptyRegistry []) = true ∧
    (regWrites []).map Prod.fst = ([] : List String) := by
  refine ⟨by decide, rfl⟩

/-- C9 (amended): starting from the program's empty registry,
`hasSlot A` is true iff `A` was assigned under an id other than
`"__proto__"`, or `A` is visible through the prototype chain — the
`"__proto__"` accessor itself, a field of the last `"__proto__"`
-polluting config when one exists, or an `Object.prototype` member.
Own entries are never removed, so an id once actually defined keeps
`hasSlot` true for the process lifetime, whatever is defined later. -/
theorem hasSlot_iff_defined (ops : List RegOp) (A : String) :
    (hasSlot A (applyRegOps emptyRegistry ops) = true ↔
      ((¬A = "__proto__" ∧ A ∈ (regWrites ops).map Prod.fst) ∨
       A = "__proto__" ∨
       (∃ c, lastWrite (regWrites ops) "__proto__" = some c ∧
         (AdSlotConfig.jsField c A).isSome = true) ∨
       objectProtoMember A = true)) ∧
    (∀ reg : SlotRegistry, (reg.own A).isSome = true →
      hasSlot A (applyRegOps reg ops) = true) := by
  constructor
  · rw [applyRegOps_eq_writes]
    have hown := own_applyWrites A (regWrites ops) emptyRegistry
    have hproto := proto_applyWrites (regWrites ops) emptyRegistry
    unfold hasSlot
    rw [hown, hproto]
    unfold lastOwnWrite
    by_cases hA : A = "__proto__"
    · simp [hA]
    · rw [if_neg hA]
      cases hlw : lastWrite (regWrites ops) A with
      | some c =>
        have hmem : A ∈ (regWrites ops).map Prod.fst :=
          (lastWrite_isSome_iff A (regWrites ops)).mp (by rw [hlw]; rfl)
        cases hpw : lastWrite (regWrites ops) "__proto__" <;>
          simp [hA, hmem, emptyRegistry, hpw]
      | none =>
        have hnmem : A ∉ (regWrites ops).map Prod.fst := by
          intro hm
          have hs := (lastWrite_isSome_iff A (regWrites ops)).mpr hm
          rw [hlw] at hs
          simp at hs
        cases hpw : lastWrite (regWrites ops) "__proto__" <;>
          simp [hA, hnmem, emptyRegistry, hpw]
  · intro reg hreg
    rw [applyRegOps_eq_writes]
    have hown := own_applyWrites A (regWrites ops) reg
    unfold hasSlot
    rw [hown]
    unfold lastOwnWrite
    by_cases hA : A = "__proto__"
    · simp [hA]
    · rw [if_neg hA]
      cases hlw : lastWrite (regWrites ops) A <;> simp [hlw, hreg]

/-- C9 witness: a slot defined under the ordinary id `"a"` is reported
by `hasSlot`. -/
theorem hasSlot_iff_defined_witness :
    hasSlot "a" (applyRegOps emptyRegistry
      [RegOp.defOne "a" (AdSlotConfig.rewarded cfgRewarded1)]) = true :=
  (hasSlot_iff_defined [RegOp.defOne "a" (AdSlotConfig.rewarded cfgRewarded1)]
    "a").1.mpr (Or.inl ⟨by decide, by simp [regWrites]⟩)

/-- C4: test-mode resolution.  A provided call-site `globalTesting`
always wins (even a `false` overriding a slot-level `true`, the first
equation at `slotIsTesting = some true`, `g = false`); with it absent the
slot's own `isTesting` is used, defaulting to `false` when unset
(`Option.getD`). -/
theorem resolveTesting_spec (slotIsTesting : Option Bool) (g : Bool) :
    resolveTesting slotIsTesting (some g) = g ∧
    resolveTesting slotIsTesting none = slotIsTesting.getD false :=
  ⟨rfl, rfl⟩

/-- C7: `shouldShowAds` is a pure predicate of the state (it takes the
state and returns a boolean, touching nothing), true iff `isInitialized`
is true and `adsRemoved` is false — for every combination of the flags,
reachable or not. -/
theorem shouldShowAds_spec (st : AdState) :
    shouldShowAds st = true ↔
      (st.isInitialized = true ∧ st.adsRemoved = false) := by
  cases h1 : st.isInitialized <;> cases h2 : st.adsRemoved <;>
    simp [shouldShowAds, h1, h2]

/-- Helper: `hide` on a non-native host is a complete no-op. -/
theorem hide_no_native (st : AdState) (env : Env) (slotId : String)
    (hn : env.isNativePlatform = false) :
    hide slotId st env = (Except.ok (), st, []) := by
  simp [hide, isNative, hn]

/-- Helper: `hide` for a slot that is not the current banner is a
complete no-op. -/
theorem hide_not_current (st : AdState) (env : Env) (slotId : String)
    (hc : st.currentBannerSlot ≠ some slotId) :
    hide slotId st env = (Except.ok (), st, []) := by
  by_cases hn : env.isNativePlatform
  · simp [hide, isNative, hn, hc]
  · simp [hide, isNative, hn]

/-- Helper: `hide` of the current banner with the module loaded and a
succeeding external `hideBanner` clears `currentBannerSlot`. -/
theorem hide_current_ok (st : AdState) (env : Env) (slotId : String)
    (hn : env.isNativePlatform = true) (hc : st.currentBannerSlot = some slotId)
    (hl : st.admobLoaded = true) (hh : env.hideBannerOk = true) :
    hide slotId st env =
      (Except.ok (), { st with currentBannerSlot := none },
       [ExtCall.hideBanner]) := by
  simp [hide, isNative, hn, hc, loadAdMob, hl, hh]

/-- Helper: `hide` of the current banner whose external `hideBanner`
rejects leaves the state unchanged. -/
theorem hide_current_fail (st : AdState) (env : Env) (slotId : String)
    (hn : env.isNativePlatform = true) (hc : st.currentBannerSlot = some slotId)
    (hl : st.admobLoaded = true) (hh : env.hideBannerOk = false) :
    hide slotId st env = (Except.ok (), st, [ExtCall.hideBanner]) := by
  simp [hide, isNative, hn, hc, loadAdMob, hl, hh]

/-- Helper: `hide` never changes the `adsRemoved` flag. -/
theorem hide_adsRemoved (st : AdState) (env : Env) (slotId : String) :
    ((hide slotId st env).2.1).adsRemoved = st.adsRemoved := by
  by_cases hn : env.isNativePlatform
  case neg => simp [hide, isNative, hn]
  case pos =>
    by_cases hc : st.currentBannerSlot = some slotId
    · by_cases hl : st.admobLoaded <;> by_cases hi : env.importAdMobOk <;>
        by_cases hh : env.hideBannerOk <;>
          simp [hide, isNative, hn, hc, loadAdMob, hl, hi, hh]
    · simp [hide, isNative, hn, hc]

/-- C6: `hide(slotId)` is a no-op returning normally when not on the
native host or when `slotId` is not the current banner; otherwise (with
the AdMob module loaded, which holds whenever a banner is actually
visible, since only a successful `showBanner` path — which loads it —
sets `currentBannerSlot`) it issues exactly the external `hideBanner`
request, clears `currentBannerSlot` on success, and on external failure
leaves the whole state unchanged. -/
theorem hide_spec (st : AdState) (env : Env) (slotId : String) :
    (env.isNativePlatform = false → hide slotId st env = (Except.ok (), st, [])) ∧
    (st.currentBannerSlot ≠ some slotId → hide slotId st env = (Except.ok (), st, [])) ∧
    (env.isNativePlatform = true → st.currentBannerSlot = some slotId →
      st.admobLoaded = true →
      (env.hideBannerOk = true →
        hide slotId st env =
          (Except.ok (), { st with currentBannerSlot := none },
           [ExtCall.hideBanner])) ∧
      (env.hideBannerOk = false →
        hide slotId st env = (Except.ok (), st, [ExtCall.hideBanner]))) :=
  ⟨hide_no_native st env slotId,
   hide_not_current st env slotId,
   fun hn hc hl =>
     ⟨fun hh => hide_current_ok st env slotId hn hc hl hh,
      fun hh => hide_current_fail st env slotId hn hc hl hh⟩⟩

/-- C6 witness: hiding the currently shown banner `"b1"` in the
all-succeeding environment clears `currentBannerSlot`. -/
theorem hide_spec_witness :
    hide "b1" stShowingB1 envW =
      (Except.ok (), { stShowingB1 with currentBannerSlot := none },
       [ExtCall.hideBanner]) :=
  ((hide_spec stShowingB1 envW "b1").2.2 rfl rfl rfl).1 rfl

/-- C5 (amended): `setAdsRemoved(removed)` always sets `adsRemoved` to
exactly the given value; and when `removed = true` while a banner slot
`S` with a truthy (non-empty) id is current, the whole remaining effect
is exactly that of the fired `hide(S)` on the flag-updated state — in
particular, when that hide succeeds (native host, module loaded,
external `hideBanner` resolves), `currentBannerSlot` becomes absent. -/
theorem setAdsRemoved_spec (st : AdState) (env : Env) (removed : Bool) :
    ((setAdsRemoved removed st env).2.1).adsRemoved = removed ∧
    (∀ S, removed = true → st.currentBannerSlot = some S → S ≠ "" →
      (setAdsRemoved removed st env).2 =
        (hide S { st with adsRemoved := true } env).2 ∧
      (env.isNativePlatform = true → st.admobLoaded = true →
        env.hideBannerOk = true →
        ((setAdsRemoved removed st env).2.1).currentBannerSlot = none)) := by
  constructor
  · cases removed with
    | false => simp [setAdsRemoved]
    | true =>
      cases hc : st.currentBannerSlot with
      | none => simp [setAdsRemoved, hc]
      | some s =>
        by_cases hs : s = ""
        · simp [setAdsRemoved, hc, hs]
        · have ha := hide_adsRemoved { st with adsRemoved := true } env s
          rw [hc] at ha
          simp [setAdsRemoved, hc, hs, ha]
  · intro S hr hc hs
    subst hr
    refine ⟨by simp [setAdsRemoved, hc, hs], ?_⟩
    intro hn hl hhOk
    have hcur : ({ st with adsRemoved := true } : AdState).currentBannerSlot
        = some S := by simpa using hc
    have h2 := hide_current_ok { st with adsRemoved := true } env S hn hcur
      (by simpa using hl) hhOk
    rw [hc] at h2
    simp [setAdsRemoved, hc, hs, h2]

/-- C5 witness: with the non-empty banner slot `"b1"` visible,
`setAdsRemoved(true)` sets the flag and (the fired hide succeeding)
clears the current banner. -/
theorem setAdsRemoved_spec_witness :
    ((setAdsRemoved true stShowingB1 envW).2.1).adsRemoved = true ∧
    ((setAdsRemoved true stShowingB1 envW).2.1).currentBannerSlot = none :=
  ⟨(setAdsRemoved_spec stShowingB1 envW true).1,
   ((setAdsRemoved_spec stShowingB1 envW true).2 "b1" rfl rfl
     (by decide)).2 rfl rfl rfl⟩

/-- C5 counterexample to the claim as stated: with the (legal) empty
string as the visible banner slot id, `setAdsRemoved(true)` fires NO
hide — the guard `removed && currentBannerSlot.value` treats `""` as
falsy — so no external call is issued and the banner stays current. -/
theorem setAdsRemoved_empty_slot_cex :
    (setAdsRemoved true stShowingEmpty envW).2.2 = [] ∧
    ((setAdsRemoved true stShowingEmpty envW).2.1).currentBannerSlot = some "" ∧
    ((setAdsRemoved true stShowingEmpty envW).2.1).adsRemoved = true :=
  ⟨rfl, rfl, rfl⟩

/-- C2: `triggerRewarded` returns `none` immediately — same state, no
external call — when a gate fails (not initialized, ads removed, not
native) or the read for the slot id is anything but a rewarded-type
config (missing, another type, or a mere prototype-chain hit); with the gates
passing and the module loaded it issues prepare-then-show with the
resolved test flag and returns the reward descriptor
`{amount, type}` on success, `none` when either external call fails.
(The spec names the string field `rewardType`; in the code the key is
`type`, carrying the reward's type.) -/
theorem triggerRewarded_spec (st : AdState) (env : Env) (slotId : String)
    (g : Option Bool) :
    (¬(st.isInitialized = true ∧ st.adsRemoved = false ∧
        env.isNativePlatform = true) →
      triggerRewarded slotId g st env = (Except.ok none, st, [])) ∧
    ((∀ slot, getSlot slotId st.registry ≠
        JsGetResult.config (AdSlotConfig.rewarded slot)) →
      triggerRewarded slotId g st env = (Except.ok none, st, [])) ∧
    (∀ slot, st.isInitialized = true → st.adsRemoved = false →
      env.isNativePlatform = true → st.admobLoaded = true →
      getSlot slotId st.registry =
        JsGetResult.config (AdSlotConfig.rewarded slot) →
      ((env.prepareRewardOk = true → ∀ r, env.showRewardResult = Except.ok r →
        triggerRewarded slotId g st env =
          (Except.ok (some { amount := r.amount, type := r.type }), st,
           [ExtCall.prepareRewardVideoAd slot.adId
              (resolveTesting slot.isTesting g),
            ExtCall.showRewardVideoAd])) ∧
       (env.prepareRewardOk = false →
        triggerRewarded slotId g st env =
          (Except.ok none, st,
           [ExtCall.prepareRewardVideoAd slot.adId
              (resolveTesting slot.isTesting g)])) ∧
       (env.showRewardResult = Except.error () →
        (triggerRewarded slotId g st env).1 = Except.ok none))) := by
  refine ⟨?_, ?_, ?_⟩
  · intro hgate
    cases h1 : st.isInitialized <;> cases h2 : st.adsRemoved <;>
      cases h3 : env.isNativePlatform <;>
        simp [triggerRewarded, isNative, h1, h2, h3] <;>
          exact absurd ⟨h1, h2, h3⟩ hgate
  · intro hns
    cases h1 : st.isInitialized <;> cases h2 : st.adsRemoved <;>
      cases h3 : env.isNativePlatform <;>
        simp [triggerRewarded, isNative, h1, h2, h3, hns]
  · intro slot h1 h2 h3 hl hslot
    refine ⟨?_, ?_, ?_⟩
    · intro hp r hr
      simp [triggerRewarded, isNative, h1, h2, h3, hslot, loadAdMob, hl, hp, hr]
    · intro hp
      simp [triggerRewarded, isNative, h1, h2, h3, hslot, loadAdMob, hl, hp]
    · intro hr
      cases hp : env.prepareRewardOk <;>
        simp [triggerRewarded, isNative, h1, h2, h3, hslot, loadAdMob, hl,
          hp, hr]

/-- C2 witness: triggering the concrete rewarded slot `"r1"` in the
ready state returns the granted 5-"coins" reward descriptor. -/
theorem triggerRewarded_spec_witness :
    triggerRewarded "r1" none stReady envW =
      (Except.ok (some { amount := 5, type := "coins" }), stReady,
       [ExtCall.prepareRewardVideoAd "ad-rewarded-1" false,
        ExtCall.showRewardVideoAd]) := by
  have h := ((triggerRewarded_spec stReady envW "r1" none).2.2 cfgRewarded1
    rfl rfl rfl rfl rfl).1 rfl { amount := 5, type := "coins" } rfl
  exact h

/-- C10: for a slot registered as `rewarded`, `show(slotId)` runs the
exact same computation as `triggerRewarded(slotId)` — same state effects,
same external calls, same propagation — but its resolved value is the
reward descriptor erased to nothing (`void`), so a caller of `show` can
never observe the granted reward. -/
theorem show_rewarded_delegates (st : AdState) (env : Env) (slotId : String)
    (g : Option Bool) (slot : RewardedSlotConfig)
    (hslot : getSlot slotId st.registry =
      JsGetResult.config (AdSlotConfig.rewarded slot)) :
    showSlot slotId g st env =
      ((triggerRewarded slotId g st env).1.map (fun _ => ()),
       (triggerRewarded slotId g st env).2) := by
  have hh : hasSlot slotId st.registry = true :=
    hasSlot_of_getSlot_config slotId st.registry _ hslot
  cases h1 : st.isInitialized <;> cases h2 : st.adsRemoved <;>
    cases h3 : env.isNativePlatform <;>
      first
        | (simp [showSlot, triggerRewarded, isNative, h1, h2, h3, Except.map]
           done)
        | (simp only [showSlot, isNative, h1, h2, h3, hh, hslot, Bool.not_true,
             Bool.not_false, Bool.false_or, Bool.or_false, Bool.true_or,
             Bool.or_true, if_false, if_true, ite_true, ite_false]
           rcases htr : triggerRewarded slotId g st env with ⟨r, st2, tr⟩
           cases r <;> simp [Except.map])

/-- C10 witness: showing the concrete rewarded slot `"r1"` has exactly
`triggerRewarded`'s effects with the reward descriptor discarded. -/
theorem show_rewarded_delegates_witness :
    showSlot "r1" none stReady envW =
      ((triggerRewarded "r1" none stReady envW).1.map (fun _ => ()),
       (triggerRewarded "r1" none stReady envW).2) :=
  show_rewarded_delegates stReady envW "r1" none cfgRewarded1 rfl

/-- C3 (amended): with the gates passing and a DIFFERENT banner slot
`T` current whose id is truthy (non-empty) — non-emptiness always holds
for ids a real `show` success stores, but the guard
`currentBannerSlot.value && ...` makes it a genuine proviso — `show(S)`
first awaits the external `hideBanner` and only after its successful
completion issues the `showBanner` request (the trace order below), and
when the show request succeeds `currentBannerSlot` becomes `S`; the
single `currentBannerSlot` cell keeps at most one banner current.
`admobLoaded` is required as the module cache invariant (a visible
banner implies a past successful `show`, which loaded the module). -/
theorem show_hides_previous_banner (st : AdState) (env : Env) (S T : String)
    (g : Option Bool) (cfg : BannerSlotConfig)
    (h1 : st.isInitialized = true) (h2 : st.adsRemoved = false)
    (h3 : env.isNativePlatform = true) (hl : st.admobLoaded = true)
    (hslot : getSlot S st.registry =
      JsGetResult.config (AdSlotConfig.banner cfg))
    (hcur : st.currentBannerSlot = some T) (hne : T ≠ S) (hte : T ≠ "") :
    ((showSlot S g st env).2.2 =
      ExtCall.hideBanner ::
        (if env.hideBannerOk then
          [ExtCall.showBanner cfg.adId
            (toBannerAdSize (cfg.size.getD BannerSize.adaptive))
            (toBannerAdPosition (cfg.position.getD BannerPosition.bottom))
            (cfg.margin.getD 0) (resolveTesting cfg.isTesting g)]
         else [])) ∧
    (env.hideBannerOk = true → env.showBannerOk = true →
      ((showSlot S g st env).2.1).currentBannerSlot = some S) := by
  have hh : hasSlot S st.registry = true :=
    hasSlot_of_getSlot_config S st.registry _ hslot
  constructor
  · cases hho : env.hideBannerOk <;>
      cases hso : env.showBannerOk <;>
        simp [showSlot, isNative, h1, h2, h3, hh, hslot, loadAdMob, hl, hcur,
          hte, hne, hho, hso]
  · intro hho hso
    simp [showSlot, isNative, h1, h2, h3, hh, hslot, loadAdMob, hl, hcur,
      hte, hne, hho, hso]

/-- C3 witness: showing `"b1"` while the distinct banner `"b2"` is
current issues `hideBanner` then `showBanner`, and ends with `"b1"`
current. -/
theorem show_hides_previous_banner_witness :
    ((showSlot "b1" none { stReady with currentBannerSlot := some "b2" }
        envW).2.2 =
      [ExtCall.hideBanner,
       ExtCall.showBanner "ad-banner-1" BannerAdSize.ADAPTIVE_BANNER
         BannerAdPosition.BOTTOM_CENTER 0 false]) ∧
    ((showSlot "b1" none { stReady with currentBannerSlot := some "b2" }
        envW).2.1).currentBannerSlot = some "b1" := by
  have h := show_hides_previous_banner
    { stReady with currentBannerSlot := some "b2" } envW "b1" "b2" none
    cfgBanner1 rfl rfl rfl rfl rfl rfl (by decide) (by decide)
  exact ⟨h.1, h.2 rfl rfl⟩

/-- C3 counterexample to the claim as stated: with the (legal) empty
string as the currently visible banner slot and `"b1" ≠ ""` requested,
the truthiness guard skips the hide entirely — `showBanner` is issued
with no preceding `hideBanner`. -/
theorem show_skips_hide_for_empty_slot_cex :
    stShowingEmpty.currentBannerSlot = some "" ∧ ("" : String) ≠ "b1" ∧
    (showSlot "b1" none stShowingEmpty envW).2.2 =
      [ExtCall.showBanner "ad-banner-1" BannerAdSize.ADAPTIVE_BANNER
        BannerAdPosition.BOTTOM_CENTER 0 false] ∧
    ExtCall.hideBanner ∉ (showSlot "b1" none stShowingEmpty envW).2.2 ∧
    ((showSlot "b1" none stShowingEmpty envW).2.1).currentBannerSlot =
      some "b1" := by
  refine ⟨rfl, by decide, rfl, by decide, rfl⟩

/-- Helper: when the lazy module import resolves, `initialize` settles
normally for every option set, state and external behaviour. -/
theorem initAds_ok (options : AdSlotsInitOptions) (st : AdState) (env : Env)
    (h : env.importAdMobOk = true) :
    (initAds options st env).1 = Except.ok () := by
  cases hn : env.isNativePlatform
  · simp [initAds, isNative, hn]
  · by_cases hl : st.admobLoaded <;>
      simp [initAds, isNative, hn, loadAdMob, hl, h] <;>
        split <;> simp

/-- Helper: `hide` settles normally when the module resolution succeeds. -/
theorem hide_ok (slotId : String) (st : AdState) (env : Env)
    (h : env.importAdMobOk = true) :
    (hide slotId st env).1 = Except.ok () := by
  cases hn : env.isNativePlatform
  · simp [hide, isNative, hn]
  · by_cases hc : st.currentBannerSlot = some slotId
    · by_cases hl : st.admobLoaded <;> cases hho : env.hideBannerOk <;>
        simp [hide, isNative, hn, hc, loadAdMob, hl, h, hho]
    · simp [hide, isNative, hn, hc]

/-- Helper: `remove` settles normally when the module resolution succeeds. -/
theorem remove_ok (slotId : String) (st : AdState) (env : Env)
    (h : env.importAdMobOk = true) :
    (remove slotId st env).1 = Except.ok () := by
  cases hn : env.isNativePlatform
  · simp [remove, isNative, hn]
  · by_cases hc : st.currentBannerSlot = some slotId
    · by_cases hl : st.admobLoaded <;> cases hro : env.removeBannerOk <;>
        simp [remove, isNative, hn, hc, loadAdMob, hl, h, hro]
    · simp [remove, isNative, hn, hc]

/-- Helper: `triggerRewarded` settles normally (with some value) when
the module import resolves. -/
theorem triggerRewarded_no_reject (st : AdState) (env : Env)
    (slotId : String) (g : Option Bool) (h : env.importAdMobOk = true) :
    ∃ v, (triggerRewarded slotId g st env).1 = Except.ok v := by
  cases h1 : st.isInitialized <;> cases h2 : st.adsRemoved <;>
    cases h3 : env.isNativePlatform <;>
      simp [triggerRewarded, isNative, h1, h2, h3] <;>
        cases hslot : getSlot slotId st.registry with
        | undef => simp
        | field p => simp
        | builtinFn n => simp
        | objectProto => simp
        | config c =>
          cases c with
          | banner cfg => simp
          | interstitial cfg => simp
          | rewarded cfg =>
            by_cases hl : st.admobLoaded <;>
              (simp [loadAdMob, hl, h]
               (split <;> try split) <;> simp)

/-- Helper: `triggerInterstitial` settles normally when the module
resolution succeeds. -/
theorem triggerInterstitial_no_reject (st : AdState) (env : Env)
    (slotId : String) (g : Option Bool) (h : env.importAdMobOk = true) :
    (triggerInterstitial slotId g st env).1 = Except.ok () := by
  cases hslot : getSlot slotId st.registry with
  | undef => simp [triggerInterstitial, hslot]
  | field p => simp [triggerInterstitial, hslot]
  | builtinFn n => simp [triggerInterstitial, hslot]
  | objectProto => simp [triggerInterstitial, hslot]
  | config c =>
    cases c with
    | banner cfg => simp [triggerInterstitial, hslot]
    | rewarded cfg => simp [triggerInterstitial, hslot]
    | interstitial cfg =>
      by_cases hl : st.admobLoaded <;>
        (simp [triggerInterstitial, hslot, loadAdMob, hl, h]
         (split <;> try split) <;> simp)

/-- Helper: `prepareInterstitial` settles normally when the module
resolution succeeds. -/
theorem prepareInterstitial_no_reject (st : AdState) (env : Env)
    (slotId : String) (g : Option Bool) (h : env.importAdMobOk = true) :
    (prepareInterstitial slotId g st env).1 = Except.ok () := by
  cases h1 : st.isInitialized <;> cases h2 : st.adsRemoved <;>
    cases h3 : env.isNativePlatform <;>
      simp [prepareInterstitial, isNative, h1, h2, h3] <;>
        cases hslot : getSlot slotId st.registry with
        | undef => simp
        | field p => simp
        | builtinFn n => simp
        | objectProto => simp
        | config c =>
          cases c with
          | banner cfg => simp
          | rewarded cfg => simp
          | interstitial cfg =>
            by_cases hl : st.admobLoaded <;> simp [loadAdMob, hl, h]

/-- Helper: `show` settles normally when the module import resolves. -/
theorem show_no_reject (st : AdState) (env : Env) (slotId : String)
    (g : Option Bool) (h : env.importAdMobOk = true) :
    (showSlot slotId g st env).1 = Except.ok () := by
  cases h1 : st.isInitialized <;> cases h2 : st.adsRemoved <;>
    cases h3 : env.isNativePlatform <;>
      simp [showSlot, isNative, h1, h2, h3] <;>
        by_cases hh : hasSlot slotId st.registry <;> simp [hh] <;>
          cases hslot : getSlot slotId st.registry with
          | undef => simp
          | field p => simp
          | builtinFn n => simp
          | objectProto => simp
          | config c =>
            cases c with
            | banner cfg =>
              by_cases hl : st.admobLoaded <;>
                (simp [loadAdMob, hl, h]
                 (split <;> try split) <;> simp)
            | interstitial cfg =>
              rcases hti : triggerInterstitial slotId g st env with ⟨r, st2, tr⟩
              have hok := triggerInterstitial_no_reject st env slotId g h
              rw [hti] at hok
              simp at hok
              subst hok
              simp
            | rewarded cfg =>
              rcases htr : triggerRewarded slotId g st env with ⟨r, st2, tr⟩
              obtain ⟨v, hok⟩ := triggerRewarded_no_reject st env slotId g h
              rw [htr] at hok
              simp at hok
              subst hok
              simp

/-- Helper: `trigger` settles normally when the module import resolves. -/
theorem trigger_no_reject (st : AdState) (env : Env) (slotId : String)
    (g : Option Bool) (h : env.importAdMobOk = true) :
    (trigger slotId g st env).1 = Except.ok () := by
  cases h1 : st.isInitialized <;> cases h2 : st.adsRemoved <;>
    cases h3 : env.isNativePlatform <;>
      simp [trigger, isNative, h1, h2, h3] <;>
        by_cases hh : hasSlot slotId st.registry <;> simp [hh] <;>
          cases hslot : getSlot slotId st.registry with
          | undef => simp
          | field p => simp
          | builtinFn n => simp
          | objectProto => simp
          | config c =>
            cases c with
            | banner cfg => simp
            | interstitial cfg =>
              rcases hti : triggerInterstitial slotId g st env with ⟨r, st2, tr⟩
              have hok := triggerInterstitial_no_reject st env slotId g h
              rw [hti] at hok
              simp at hok
              subst hok
              simp
            | rewarded cfg =>
              rcases htr : triggerRewarded slotId g st env with ⟨r, st2, tr⟩
              obtain ⟨v, hok⟩ := triggerRewarded_no_reject st env slotId g h
              rw [htr] at hok
              simp at hok
              subst hok
              simp

/-- C1 (amended): provided the lazy resolution of the external AdMob
module succeeds whenever attempted (`importAdMobOk`), every public
operation — `initialize`, `show`, `hide`, `remove`, `trigger`,
`triggerRewarded`, `prepareInterstitialSlot`, `setAdsRemoved` — settles
normally for EVERY state and EVERY behaviour of the external advertising
capability: all its rejections are caught and become no-ops or absent
results.  (Without that proviso the claim fails: each `await loadAdMob()`
sits before its `try`, so a rejected module import escapes — see the
counterexample.)  `setAdsRemoved` is synchronous and can never reject. -/
theorem public_surface_ok_of_import_ok (op : PublicOp) (st : AdState)
    (env : Env) (h : env.importAdMobOk = true) :
    (runPublicOp op st env).1 = Except.ok () := by
  cases op with
  | initOp options => exact initAds_ok options st env h
  | showOp slotId g => exact show_no_reject st env slotId g h
  | hideOp slotId => exact hide_ok slotId st env h
  | removeOp slotId => exact remove_ok slotId st env h
  | triggerOp slotId g => exact trigger_no_reject st env slotId g h
  | triggerRewardedOp slotId g =>
    rcases htr : triggerRewarded slotId g st env with ⟨r, st2, tr⟩
    obtain ⟨v, hok⟩ := triggerRewarded_no_reject st env slotId g h
    rw [htr] at hok
    simp at hok
    subst hok
    simp [runPublicOp, htr]
  | prepareInterstitialSlotOp slotId g =>
    exact prepareInterstitial_no_reject st env slotId g h
  | setAdsRemovedOp removed =>
    rcases hs : setAdsRemoved removed st env with ⟨u, st1, tr1⟩
    simp [runPublicOp, hs]

/-- C1 witness: a concrete public call settles normally. -/
theorem public_surface_ok_witness :
    (runPublicOp (PublicOp.showOp "b1" none) stReady envW).1 =
      Except.ok () :=
  public_surface_ok_of_import_ok (PublicOp.showOp "b1" none) stReady envW rfl

/-- C1 counterexample to the claim as stated: on a native host whose
AdMob module import rejects, `initialize` — whose `await loadAdMob()` is
OUTSIDE the `try` — propagates the rejection to its caller instead of
swallowing it (and `isInitialized` stays false). -/
theorem init_rejects_on_import_failure_cex :
    (initAds optsW stFresh envNoImport).1 = Except.error () ∧
    ((initAds optsW stFresh envNoImport).2.1).isInitialized = false :=
  ⟨rfl, rfl⟩
